import Mathlib

/-!
Verification of the REopt single-scenario client
(src/reopt-single-scenario.ts) against its specification.

We shallowly embed the parts of the program the claims are about:

* the job lifecycle controller `REoptApiClient.getApiResults`
  (submit, poll loop with the hardcoded `maxAttempts = 120`, terminal
  detection on the literal statuses "optimal" / "error", result file
  write, timeout throw);
* the manual resume path `REoptApiClient.getResultsManually`;
* the JSON-file persistent store (`savePostData`, `loadPostData`,
  `saveApiResponse`, `loadApiResponse`, `loadElectricRate`) over a
  filesystem modeled as an association list from path to stored
  document — `JSON.stringify` / `JSON.parse` are the platform's
  mutually inverse codec (not repository code), so file contents are
  modeled at the JSON-document level and the write/read of a file is
  the insert/lookup of its parsed document;
* the result presenter `REoptApiClient.printResultsSummary`, with
  JavaScript truthiness and the `Object.keys` TypeError on null
  modeled explicitly.

Network adapters are parameters: the single submit call is an
`Except`-valued result, and the status fetch is a function from the
polled run uuid and the attempt index to an `Except`-valued response.
Every run returns, besides its result, a trace counting submit calls,
status fetches, sleeps, and the list of file writes performed.
-/

namespace Reopt

/-- JSON documents. JavaScript `null` and `undefined` are both modeled
as `Json.null` (the program distinguishes them nowhere: both are falsy
and both make `Object.keys` throw). Numbers are modeled as integers;
no claim depends on numeric semantics, documents are passed through
opaquely. -/
inductive Json where
  | null : Json
  | bool (b : Bool) : Json
  | num (n : Int) : Json
  | str (s : String) : Json
  | arr (elems : List Json) : Json
  | obj (fields : List (String × Json)) : Json


/-- Thrown JavaScript error values, as the program produces or meets
them: `jsError msg` is `new Error(msg)`; `axiosErr code` is a
transport-level failure surfaced by axios; `enoent p` is the
file-not-found error `fs.readFileSync` throws; `typeError msg` is the
TypeError `Object.keys` throws on null/undefined. -/
inductive JsError where
  | jsError (msg : String) : JsError
  | axiosErr (code : String) : JsError
  | enoent (p : String) : JsError
  | typeError (msg : String) : JsError


/-- The submit response body: the code reads only `run_uuid` from
`jobResponse.data`. -/
structure Submission where
  run_uuid : String


/-- A fetched results document: the poll loop reads only its `status`
string; the rest is the opaque remainder `body`, serialized whole when
the result file is written. -/
structure JobDoc where
  status : String
  body : Json


/-- Effect trace of one controller run: number of submit POSTs, number
of status GETs, number of 5-second sleeps, and the file writes
performed (path paired with the document written). -/
structure Trace where
  submits : Nat
  fetches : Nat
  sleeps : Nat
  writes : List (String × JobDoc)


/-- Outcome of the poll loop alone (no submit counted yet). -/
structure PollT where
  res : Except JsError JobDoc
  fetches : Nat
  sleeps : Nat
  writes : List (String × JobDoc)


/-- Node's `path.join('.', d)` normalizes to `d`; the four directories
the constructor prepares. -/
def inputsPath : String := "inputs"

def outputsPath : String := "outputs"

def loadsPath : String := "load_profiles"

def ratesPath : String := "electric_rates"

/-- `path.join(dir, file)` for the non-empty segments the program
uses. -/
def pathJoin (dir file : String) : String := dir ++ "/" ++ file

/-- The hardcoded poll bound: `const maxAttempts = 120`. -/
def maxAttempts : Nat := 120

/-- The `while (attempts < maxAttempts)` loop of `getApiResults`,
recursing on the remaining attempt budget `r` with `i` the current
attempt index. Each iteration GETs the results once; a terminal status
(`'optimal'` or `'error'`) writes the result file and returns; a fetch
error propagates (rethrown unchanged by the catch block); otherwise
the loop sleeps 5 s, increments the counter and continues; an
exhausted budget throws `new Error('API polling timed out')`. -/
def pollLoop (f : Nat → Except JsError JobDoc) (outPath : String) :
    Nat → Nat → PollT
  | _, 0 => ⟨.error (.jsError "API polling timed out"), 0, 0, []⟩
  | i, r + 1 =>
    match f i with
    | .error e => ⟨.error e, 1, 0, []⟩
    | .ok result =>
      if result.status = "optimal" ∨ result.status = "error" then
        ⟨.ok result, 1, 0, [(outPath, result)]⟩
      else
        let t := pollLoop f outPath (i + 1) r
        ⟨t.res, t.fetches + 1, t.sleeps + 1, t.writes⟩

/-- `REoptApiClient.getApiResults(postData, outputFileName, runId)`.
`submit` is the result of the one `axios.post` submit call; `fetch`
gives, for a run uuid and an attempt index, the corresponding
`axios.get` result. Faithful to the source, the `runId` parameter is
bound but never read: the job is always submitted, and the poll URL is
built from the fresh submission's `run_uuid`. On a submit error the
catch block rethrows it unchanged. -/
def getApiResults (submit : Except JsError Submission)
    (fetch : String → Nat → Except JsError JobDoc)
    (outputFileName : String := "results_file")
    (runId : Option String := none) : Except JsError JobDoc × Trace :=
  match submit with
  | .error e => (.error e, ⟨1, 0, 0, []⟩)
  | .ok jobResponse =>
    let outPath := pathJoin outputsPath (outputFileName ++ ".json")
    let t := pollLoop (fetch jobResponse.run_uuid) outPath 0 maxAttempts
    (t.res, ⟨1, t.fetches, t.sleeps, t.writes⟩)

/-- `REoptApiClient.getResultsManually(runUuid)`: a single GET of the
results URL for the supplied handle, no submit, no loop, no write. -/
def getResultsManually (fetch : String → Nat → Except JsError JobDoc)
    (runUuid : String) : Except JsError JobDoc × Trace :=
  (fetch runUuid 0, ⟨0, 1, 0, []⟩)

/-! ### The persistent store

Files are an association list from path to the JSON document stored at
that path; `fs.writeFileSync` truncates and replaces, which the
head-insert together with first-match lookup models. -/

/-- Filesystem state: path to parsed content of the file there. -/
def FS : Type := List (String × Json)

/-- First-match lookup of a path. -/
def lookupFS (fs : FS) (p : String) : Option Json :=
  match fs with
  | [] => none
  | (q, d) :: rest => if q = p then some d else lookupFS rest p

/-- `fs.existsSync(p)`. -/
def existsSync (fs : FS) (p : String) : Bool :=
  (lookupFS fs p).isSome

/-- `JSON.parse(fs.readFileSync(p, 'utf8'))`: the stored document, or
the ENOENT error `readFileSync` throws when the file is absent. -/
def readFileSync (fs : FS) (p : String) : Except JsError Json :=
  match lookupFS fs p with
  | some d => .ok d
  | none => .error (.enoent p)

/-- `fs.writeFileSync(p, JSON.stringify(doc, null, 2))`. -/
def writeFileSync (fs : FS) (p : String) (doc : Json) : FS :=
  (p, doc) :: fs

/-- `REoptApiClient.savePostData(postData, fileName)`: writes the
document under `inputs/fileName.json`. -/
def savePostData (fs : FS) (postData : Json) (fileName : String) : FS :=
  writeFileSync fs (pathJoin inputsPath (fileName ++ ".json")) postData

/-- `REoptApiClient.loadPostData(fileName)`: reads and parses
`inputs/fileName.json`; throws ENOENT when the file was never
written. -/
def loadPostData (fs : FS) (fileName : String) : Except JsError Json :=
  readFileSync fs (pathJoin inputsPath (fileName ++ ".json"))

/-- `REoptApiClient.saveApiResponse(response, fileName)`: writes the
document under `outputs/fileName.json`. -/
def saveApiResponse (fs : FS) (response : Json) (fileName : String) : FS :=
  writeFileSync fs (pathJoin outputsPath (fileName ++ ".json")) response

/-- `REoptApiClient.loadApiResponse(fileName)`: reads and parses
`outputs/fileName.json`. -/
def loadApiResponse (fs : FS) (fileName : String) : Except JsError Json :=
  readFileSync fs (pathJoin outputsPath (fileName ++ ".json"))

/-- `REoptApiClient.loadElectricRate(rateName)`: checks existence of
`electric_rates/rateName.json`; when present reads and parses it, when
absent returns `null` (a normal return value, not a thrown error). -/
def loadElectricRate (fs : FS) (rateName : String) : Except JsError Json :=
  let ratePath := pathJoin ratesPath (rateName ++ ".json")
  if existsSync fs ratePath then
    readFileSync fs ratePath
  else
    .ok .null

/-! ### The result presenter

`printResultsSummary` only console-logs. We model its observable
behavior as the ordered list of printed lines, or the JavaScript error
it throws: `Object.keys(x)` throws a TypeError when `x` is null or
undefined, and the function applies it to `messages.errors` and
`messages.warnings` guarded only by the truthiness of `messages`
itself. -/

/-- JavaScript truthiness of a value. -/
def truthy : Json → Bool
  | .null => false
  | .bool b => b
  | .num n => n != 0
  | .str s => s != ""
  | .arr _ => true
  | .obj _ => true

/-- Property access `v[k]`: the field of an object, `undefined`
(modeled as `Json.null`) otherwise. The program only dereferences
values it has checked to be truthy or via optional chaining, so the
null-dereference TypeError cannot arise at the accesses modeled
here. -/
def getField (v : Json) (k : String) : Json :=
  match v with
  | .obj fields =>
    match lookupFS fields k with
    | some w => w
    | none => .null
  | _ => .null

/-- `Object.keys(v)`: throws a TypeError on null/undefined, yields the
own enumerable keys otherwise (index strings for arrays and strings,
nothing for the remaining primitives). -/
def objectKeys : Json → Except JsError (List String)
  | .null => .error (.typeError "Cannot convert undefined or null to object")
  | .obj fields => .ok (fields.map Prod.fst)
  | .arr xs => .ok ((List.range xs.length).map toString)
  | .str s => .ok ((List.range s.length).map toString)
  | .bool _ => .ok []
  | .num _ => .ok []

mutual

/-- Template-literal rendering of a value, as in `console.log` format
strings: strings verbatim, numbers and booleans printed, null for
null/undefined, arrays joined by commas, plain objects as
"[object Object]". -/
def jstr : Json → String
  | .null => "null"
  | .bool b => if b then "true" else "false"
  | .num n => toString n
  | .str s => s
  | .arr xs => jstrList xs
  | .obj _ => "[object Object]"

/-- Comma-joined rendering of an array's elements. -/
def jstrList : List Json → String
  | [] => ""
  | [x] => jstr x
  | x :: y :: xs => jstr x ++ "," ++ jstrList (y :: xs)

end

/-- `s.includes(sub)` for non-empty `sub`: `splitOn` produces more
than one part exactly when `sub` occurs in `s`. -/
def jsIncludes (s sub : String) : Bool :=
  (s.splitOn sub).length != 1

/-- The `REoptResponse` fields `printResultsSummary` reads: `status`
and `run_uuid` are strings per the interface; `outputs` and `messages`
are arbitrary documents (possibly null/absent). -/
structure RespDoc where
  status : String
  run_uuid : String
  outputs : Json
  messages : Json

/-- The technology list scanned for sizes. -/
def techList : List String :=
  ["PV", "Wind", "ElectricStorage", "CHP", "Generator",
   "HotThermalStorage", "ColdThermalStorage", "AbsorptionChiller",
   "GHP", "Boiler", "SteamTurbine"]

/-- The loop body for one technology: guarded by the truthiness of
`outputs?.[tech]`, the GHP special case, then every key of the tech's
outputs whose name includes "size". -/
def techLines (outputs : Json) (tech : String) :
    Except JsError (List String) :=
  if truthy (getField outputs tech) then
    let techOutputs := getField outputs tech
    let ghpLines :=
      if tech = "GHP" ∧ truthy (getField techOutputs "ghpghx_chosen_outputs") then
        ["GHX Number of Boreholes: " ++
           jstr (getField (getField techOutputs "ghpghx_chosen_outputs")
             "number_of_boreholes"),
         "GHP Heat Pump Capacity (ton): " ++
           jstr (getField (getField techOutputs "ghpghx_chosen_outputs")
             "peak_combined_heatpump_thermal_ton")]
      else []
    match objectKeys techOutputs with
    | .error e => .error e
    | .ok ks =>
      .ok (ghpLines ++
        (ks.filter (fun k => jsIncludes k "size")).map
          (fun k => tech ++ " " ++ k ++ ": " ++ jstr (getField techOutputs k)))
  else .ok []

/-- The `for (const tech of techList)` loop, accumulating printed
lines left to right. -/
def allTechLines (outputs : Json) : List String → Except JsError (List String)
  | [] => .ok []
  | tech :: rest =>
    match techLines outputs tech with
    | .error e => .error e
    | .ok ls =>
      match allTechLines outputs rest with
      | .error e => .error e
      | .ok more => .ok (ls ++ more)

/-- The messages block: guarded by the truthiness of `messages` only;
`Object.keys` is applied to `messages.errors` and `messages.warnings`
unguarded, so a truthy `messages` whose `errors` or `warnings` is
null/absent throws. -/
def messageLines (messages : Json) : Except JsError (List String) :=
  if truthy messages then
    let infoLines :=
      if truthy (getField messages "info") then
        ["Info: " ++ jstr (getField messages "info")]
      else []
    match objectKeys (getField messages "errors") with
    | .error e => .error e
    | .ok eks =>
      let errLines :=
        if eks.length > 0 then
          ["Errors: " ++ jstr (getField messages "errors")]
        else []
      match objectKeys (getField messages "warnings") with
      | .error e => .error e
      | .ok wks =>
        let warnLines :=
          if wks.length > 0 then
            ["Warnings: " ++ jstr (getField messages "warnings")]
          else []
        .ok (infoLines ++ errLines ++ warnLines)
  else .ok []

/-- The closing block listing available output categories, guarded by
the truthiness of `outputs`. -/
def outputCategoryLines (outputs : Json) : Except JsError (List String) :=
  if truthy outputs then
    match objectKeys outputs with
    | .error e => .error e
    | .ok ks => .ok ("Available output categories:" :: ks.map (fun k => "  " ++ k))
  else .ok []

/-- `REoptApiClient.printResultsSummary(apiResponse)`: the header, the
optional financial lines, the technology loop, the messages block and
the output-category listing, in print order; or the thrown error. -/
def printResultsSummary (r : RespDoc) : Except JsError (List String) :=
  let header :=
    ["=== REopt Results Summary ===",
     "Status: " ++ r.status,
     "Run UUID: " ++ r.run_uuid]
  let finLines :=
    if truthy (getField r.outputs "Financial") then
      ["NPV ($): " ++ jstr (getField (getField r.outputs "Financial") "npv"),
       "Capital Cost, Net ($): " ++
         jstr (getField (getField r.outputs "Financial") "lifecycle_capital_costs")]
    else []
  match allTechLines r.outputs techList with
  | .error e => .error e
  | .ok tls =>
    match messageLines r.messages with
    | .error e => .error e
    | .ok mls =>
      match outputCategoryLines r.outputs with
      | .error e => .error e
      | .ok cls => .ok (header ++ finLines ++ tls ++ mls ++ cls)

/-! ### Poll-loop lemmas -/

/-- A fetch outcome on which the loop keeps polling: a successful
response whose status is neither of the two terminal literals. -/
def NonTermOk : Except JsError JobDoc → Prop
  | .ok d => ¬(d.status = "optimal" ∨ d.status = "error")
  | .error _ => False

instance (x : Except JsError JobDoc) : Decidable (NonTermOk x) :=
  match x with
  | .ok d => inferInstanceAs (Decidable ¬(d.status = "optimal" ∨ d.status = "error"))
  | .error _ => inferInstanceAs (Decidable False)

lemma pollLoop_reaches_terminal
    (f : Nat → Except JsError JobDoc) (p : String) (d : JobDoc) (k : Nat) :
    ∀ i r : Nat, (∀ m < k, NonTermOk (f (i + m))) →
      f (i + k) = .ok d → (d.status = "optimal" ∨ d.status = "error") →
      k < r →
      pollLoop f p i r = ⟨.ok d, k + 1, k, [(p, d)]⟩ := by
  induction k with
  | zero =>
    intro i r hpre hk hterm hr
    obtain ⟨r', rfl⟩ : ∃ r', r = r' + 1 := ⟨r - 1, by omega⟩
    rw [Nat.add_zero] at hk
    simp [pollLoop, hk, hterm]
  | succ k ih =>
    intro i r hpre hk hterm hr
    obtain ⟨r', rfl⟩ : ∃ r', r = r' + 1 := ⟨r - 1, by omega⟩
    have h0 : NonTermOk (f i) := by
      have := hpre 0 (by omega)
      rwa [Nat.add_zero] at this
    cases hf : f i with
    | error e => rw [hf] at h0; exact h0.elim
    | ok dd =>
      rw [hf] at h0
      have hnt : ¬(dd.status = "optimal" ∨ dd.status = "error") := h0
      have hrec := ih (i + 1) r'
        (fun m hm => by
          have := hpre (m + 1) (by omega)
          rwa [show i + (m + 1) = i + 1 + m by omega] at this)
        (by rwa [show i + 1 + k = i + (k + 1) by omega])
        hterm (by omega)
      simp [pollLoop, hf, hnt, hrec]

lemma pollLoop_reaches_error
    (f : Nat → Except JsError JobDoc) (p : String) (e : JsError) (k : Nat) :
    ∀ i r : Nat, (∀ m < k, NonTermOk (f (i + m))) →
      f (i + k) = .error e → k < r →
      pollLoop f p i r = ⟨.error e, k + 1, k, []⟩ := by
  induction k with
  | zero =>
    intro i r hpre hk hr
    obtain ⟨r', rfl⟩ : ∃ r', r = r' + 1 := ⟨r - 1, by omega⟩
    rw [Nat.add_zero] at hk
    simp [pollLoop, hk]
  | succ k ih =>
    intro i r hpre hk hr
    obtain ⟨r', rfl⟩ : ∃ r', r = r' + 1 := ⟨r - 1, by omega⟩
    have h0 : NonTermOk (f i) := by
      have := hpre 0 (by omega)
      rwa [Nat.add_zero] at this
    cases hf : f i with
    | error e2 => rw [hf] at h0; exact h0.elim
    | ok dd =>
      rw [hf] at h0
      have hnt : ¬(dd.status = "optimal" ∨ dd.status = "error") := h0
      have hrec := ih (i + 1) r'
        (fun m hm => by
          have := hpre (m + 1) (by omega)
          rwa [show i + (m + 1) = i + 1 + m by omega] at this)
        (by rwa [show i + 1 + k = i + (k + 1) by omega])
        (by omega)
      simp [pollLoop, hf, hnt, hrec]

lemma pollLoop_times_out
    (f : Nat → Except JsError JobDoc) (p : String) :
    ∀ r i : Nat, (∀ m < r, NonTermOk (f (i + m))) →
      pollLoop f p i r = ⟨.error (.jsError "API polling timed out"), r, r, []⟩ := by
  intro r
  induction r with
  | zero => intro i _; simp [pollLoop]
  | succ r ih =>
    intro i hpre
    have h0 : NonTermOk (f i) := by
      have := hpre 0 (by omega)
      rwa [Nat.add_zero] at this
    cases hf : f i with
    | error e => rw [hf] at h0; exact h0.elim
    | ok dd =>
      rw [hf] at h0
      have hnt : ¬(dd.status = "optimal" ∨ dd.status = "error") := h0
      have hrec := ih (i + 1)
        (fun m hm => by
          have := hpre (m + 1) (by omega)
          rwa [show i + (m + 1) = i + 1 + m by omega] at this)
      simp [pollLoop, hf, hnt, hrec]

/-- A fetch outcome carrying a successful response with the given
status string. -/
def StatusIs : Except JsError JobDoc → String → Prop
  | .ok d, s => d.status = s
  | .error _, _ => False

instance (x : Except JsError JobDoc) (s : String) : Decidable (StatusIs x s) :=
  match x with
  | .ok d => inferInstanceAs (Decidable (d.status = s))
  | .error _ => inferInstanceAs (Decidable False)

lemma nonTermOk_of_statusIs (x : Except JsError JobDoc) (s : String)
    (h : StatusIs x s) (h1 : s ≠ "optimal") (h2 : s ≠ "error") :
    NonTermOk x := by
  cases x with
  | error e => exact h.elim
  | ok d =>
    have hs : d.status = s := h
    intro hor
    rcases hor with ho | he
    · rw [hs] at ho; exact h1 ho
    · rw [hs] at he; exact h2 he

/-- `getApiResults` when the submission succeeds and the fetch
sequence first turns terminal at attempt `k < maxAttempts`: one
submit, `k + 1` fetches, `k` sleeps, the result file written once, the
terminal document returned. -/
lemma getApiResults_reaches_terminal (sub : Submission)
    (f : String → Nat → Except JsError JobDoc) (name : String)
    (rid : Option String) (d : JobDoc) (k : Nat)
    (hpre : ∀ m < k, NonTermOk (f sub.run_uuid m))
    (hk : f sub.run_uuid k = .ok d)
    (hterm : d.status = "optimal" ∨ d.status = "error")
    (hlt : k < maxAttempts) :
    getApiResults (.ok sub) f name rid =
      (.ok d, ⟨1, k + 1, k, [(pathJoin outputsPath (name ++ ".json"), d)]⟩) := by
  have hp := pollLoop_reaches_terminal (f sub.run_uuid)
    (pathJoin outputsPath (name ++ ".json")) d k 0 maxAttempts
    (fun m hm => by simpa using hpre m hm) (by simpa using hk) hterm hlt
  simp [getApiResults, hp]

/-- `getApiResults` when the fetch at attempt `k < maxAttempts` throws
and every fetch before it was non-terminal: the error propagates
unchanged, after one submit, `k + 1` fetches, `k` sleeps and no
write. -/
lemma getApiResults_fetch_error (sub : Submission)
    (f : String → Nat → Except JsError JobDoc) (name : String)
    (rid : Option String) (e : JsError) (k : Nat)
    (hpre : ∀ m < k, NonTermOk (f sub.run_uuid m))
    (hk : f sub.run_uuid k = .error e)
    (hlt : k < maxAttempts) :
    getApiResults (.ok sub) f name rid = (.error e, ⟨1, k + 1, k, []⟩) := by
  have hp := pollLoop_reaches_error (f sub.run_uuid)
    (pathJoin outputsPath (name ++ ".json")) e k 0 maxAttempts
    (fun m hm => by simpa using hpre m hm) (by simpa using hk) hlt
  simp [getApiResults, hp]

/-- `getApiResults` when no fetch among the first `maxAttempts` is
terminal: the generic timeout error, after one submit, exactly
`maxAttempts` fetches, `maxAttempts` sleeps and no write. -/
lemma getApiResults_times_out (sub : Submission)
    (f : String → Nat → Except JsError JobDoc) (name : String)
    (rid : Option String)
    (hpre : ∀ m < maxAttempts, NonTermOk (f sub.run_uuid m)) :
    getApiResults (.ok sub) f name rid =
      (.error (.jsError "API polling timed out"),
       ⟨1, maxAttempts, maxAttempts, []⟩) := by
  have hp := pollLoop_times_out (f sub.run_uuid)
    (pathJoin outputsPath (name ++ ".json")) maxAttempts 0
    (fun m hm => by simpa using hpre m hm)
  simp [getApiResults, hp]

/-! ### Presenter lemmas -/

/-- Whether a call returned normally rather than throwing. -/
def isOk {α : Type} : Except JsError α → Bool
  | .ok _ => true
  | .error _ => false

lemma isOk_exists {α : Type} (x : Except JsError α) (h : isOk x = true) :
    ∃ v, x = .ok v := by
  cases x with
  | ok v => exact ⟨v, rfl⟩
  | error e => simp [isOk] at h

lemma objectKeys_ok_of_ne_null (j : Json) (h : j ≠ .null) :
    ∃ ks, objectKeys j = .ok ks := by
  cases j with
  | null => exact absurd rfl h
  | bool b => exact ⟨_, rfl⟩
  | num n => exact ⟨_, rfl⟩
  | str s => exact ⟨_, rfl⟩
  | arr xs => exact ⟨_, rfl⟩
  | obj fields => exact ⟨_, rfl⟩

lemma truthy_ne_null (j : Json) (h : truthy j = true) : j ≠ .null := by
  intro hn
  rw [hn] at h
  exact absurd h (by simp [truthy])

lemma techLines_isOk (outputs : Json) (tech : String) :
    isOk (techLines outputs tech) = true := by
  by_cases ht : truthy (getField outputs tech) = true
  · obtain ⟨ks, hks⟩ := objectKeys_ok_of_ne_null _ (truthy_ne_null _ ht)
    simp [techLines, ht, hks, isOk]
  · simp [techLines, ht, isOk]

lemma allTechLines_isOk (outputs : Json) (l : List String) :
    isOk (allTechLines outputs l) = true := by
  induction l with
  | nil => simp [allTechLines, isOk]
  | cons tech rest ih =>
    obtain ⟨ls, hls⟩ := isOk_exists _ (techLines_isOk outputs tech)
    obtain ⟨ms, hms⟩ := isOk_exists _ ih
    simp [allTechLines, hls, hms, isOk]

lemma messageLines_isOk (messages : Json)
    (herr : truthy messages = true → getField messages "errors" ≠ Json.null)
    (hwarn : truthy messages = true → getField messages "warnings" ≠ Json.null) :
    isOk (messageLines messages) = true := by
  by_cases hm : truthy messages = true
  · obtain ⟨eks, he⟩ := objectKeys_ok_of_ne_null _ (herr hm)
    obtain ⟨wks, hw⟩ := objectKeys_ok_of_ne_null _ (hwarn hm)
    simp [messageLines, hm, he, hw, isOk]
  · simp [messageLines, hm, isOk]

lemma outputCategoryLines_isOk (outputs : Json) :
    isOk (outputCategoryLines outputs) = true := by
  by_cases ho : truthy outputs = true
  · obtain ⟨ks, hks⟩ := objectKeys_ok_of_ne_null _ (truthy_ne_null _ ho)
    simp [outputCategoryLines, ho, hks, isOk]
  · simp [outputCategoryLines, ho, isOk]

/-! ### Concrete adapters used by witnesses and counterexamples -/

/-- A service on which only the freshly submitted job ("fresh-uuid")
ever reports terminal; any other polled handle stays Running. -/
def freshOnlyFetch : String → Nat → Except JsError JobDoc :=
  fun u _ =>
    if u = "fresh-uuid" then .ok ⟨"optimal", Json.null⟩
    else .ok ⟨"Running", Json.null⟩

/-- A fetch sequence that never turns terminal. -/
def runForever : String → Nat → Except JsError JobDoc :=
  fun _ _ => .ok ⟨"Running", Json.null⟩

/-- Two Running fetches, then optimal with the example npv output. -/
def twoRunningFetch : String → Nat → Except JsError JobDoc :=
  fun _ i =>
    if i < 2 then .ok ⟨"Running", Json.null⟩
    else .ok ⟨"optimal", Json.obj [("Financial", Json.obj [("npv", Json.num 50000)])]⟩

/-- Running for the first 120 fetches, optimal from the 121st on. -/
def lateOptimalFetch : String → Nat → Except JsError JobDoc :=
  fun _ i =>
    if i < 120 then .ok ⟨"Running", Json.null⟩
    else .ok ⟨"optimal", Json.null⟩

/-- Optimal on the very first fetch. -/
def instantOptimalFetch : String → Nat → Except JsError JobDoc :=
  fun _ _ => .ok ⟨"optimal", Json.null⟩

/-- Two fetches with a status outside the known enumeration, then the
terminal failure status. -/
def weirdThenErrorFetch : String → Nat → Except JsError JobDoc :=
  fun _ i =>
    if i < 2 then .ok ⟨"Optimizing...", Json.null⟩
    else .ok ⟨"error", Json.null⟩

/-- A non-terminal first fetch, then a transport error on the second. -/
def failsAtOneFetch : String → Nat → Except JsError JobDoc :=
  fun _ i =>
    if i = 0 then .ok ⟨"Running", Json.null⟩
    else .error (.axiosErr "ECONNRESET")

/-! ### The claims -/

/-- Claim C1 (the claim is the code's evident intent; the code drops
it): supplying the pre-known handle "abc-123" as `runId` does not skip
submission — the run still performs exactly one submit call, and it
polls the fresh submission's run uuid rather than the supplied handle
(the fetch function returns terminal only for "fresh-uuid", and the
run completes, so "fresh-uuid" is what was polled). The resume
behavior the claim describes exists only in `getResultsManually`,
which indeed performs zero submits and one fetch. -/
theorem claimC1_runId_is_ignored :
    (getApiResults (.ok ⟨"fresh-uuid"⟩) freshOnlyFetch "results_file"
        (some "abc-123")).2.submits = 1 ∧
    (getApiResults (.ok ⟨"fresh-uuid"⟩) freshOnlyFetch "results_file"
        (some "abc-123")).1 = .ok ⟨"optimal", Json.null⟩ ∧
    (getResultsManually freshOnlyFetch "abc-123").2.submits = 0 ∧
    (getResultsManually freshOnlyFetch "abc-123").2.fetches = 1 :=
  ⟨rfl, rfl, rfl, rfl⟩

/-- Claim C2, counterexample to "the error value carries the original
job handle": two runs whose submissions return different run uuids
("uuid-A" and "uuid-B") and which then time out produce literally the
same error value, the generic `new Error('API polling timed out')`;
an error value that carried the handle would have to differ between
the two runs. -/
theorem claimC2_counterexample :
    (getApiResults (.ok ⟨"uuid-A"⟩) runForever "results_file" none).1 =
      (getApiResults (.ok ⟨"uuid-B"⟩) runForever "results_file" none).1 ∧
    (getApiResults (.ok ⟨"uuid-A"⟩) runForever "results_file" none).1 =
      .error (.jsError "API polling timed out") :=
  ⟨rfl, rfl⟩

/-- Claim C2 as amended: when no fetched status is terminal within
`maxAttempts` (the fixed constant 120), the run fails after exactly
`maxAttempts` status fetches with the generic timeout error — which
does not carry the job handle. -/
theorem claimC2_timeout_generic_error (sub : Submission)
    (f : String → Nat → Except JsError JobDoc) (name : String)
    (rid : Option String)
    (hpre : ∀ m < maxAttempts, NonTermOk (f sub.run_uuid m)) :
    getApiResults (.ok sub) f name rid =
      (.error (.jsError "API polling timed out"),
       ⟨1, maxAttempts, maxAttempts, []⟩) :=
  getApiResults_times_out sub f name rid hpre

/-- Claim C2 witness: the amended statement at the never-terminal
fetch sequence. -/
theorem claimC2_timeout_witness :
    getApiResults (.ok ⟨"uuid-A"⟩) runForever "results_file" none =
      (.error (.jsError "API polling timed out"), ⟨1, 120, 120, []⟩) :=
  claimC2_timeout_generic_error ⟨"uuid-A"⟩ runForever "results_file" none
    (by decide)

/-- Claim C3 as amended: for every `k < maxAttempts`, a poll sequence
of `k` Running/Pending fetches followed by an optimal fetch makes the
run perform exactly one submit, `k + 1` status fetches and `k` sleeps,
returning the terminal document. -/
theorem claimC3_success_counts (sub : Submission)
    (f : String → Nat → Except JsError JobDoc) (name : String)
    (rid : Option String) (d : JobDoc) (k : Nat)
    (hpre : ∀ m < k, StatusIs (f sub.run_uuid m) "Running" ∨
      StatusIs (f sub.run_uuid m) "Pending")
    (hk : f sub.run_uuid k = .ok d) (hsucc : d.status = "optimal")
    (hlt : k < maxAttempts) :
    getApiResults (.ok sub) f name rid =
      (.ok d, ⟨1, k + 1, k, [(pathJoin outputsPath (name ++ ".json"), d)]⟩) := by
  refine getApiResults_reaches_terminal sub f name rid d k ?_ hk (Or.inl hsucc) hlt
  intro m hm
  rcases hpre m hm with h | h
  · exact nonTermOk_of_statusIs _ _ h (by decide) (by decide)
  · exact nonTermOk_of_statusIs _ _ h (by decide) (by decide)

/-- Claim C3 witness: two Running fetches then optimal (the spec's own
example scenario) yields one submit, three fetches, two sleeps, and
returns the optimal document with npv 50000; at `k = 0` the count
`k + 1 = 1` fetch and `k = 0` sleeps is the first-fetch case. -/
theorem claimC3_success_witness :
    getApiResults (.ok ⟨"abc-123"⟩) twoRunningFetch "results_file" none =
      (.ok ⟨"optimal", Json.obj [("Financial", Json.obj [("npv", Json.num 50000)])]⟩,
       ⟨1, 3, 2,
        [("outputs/results_file.json",
          ⟨"optimal", Json.obj [("Financial", Json.obj [("npv", Json.num 50000)])]⟩)]⟩) :=
  claimC3_success_counts ⟨"abc-123"⟩ twoRunningFetch "results_file" none _ 2
    (by decide) rfl rfl (by decide)

/-- Claim C3, counterexample to the unbounded "for every natural
number k": at `k = 120` the first 120 fetches are Running and the
121st would be optimal, yet the run stops at `maxAttempts = 120`
fetches — not `k + 1 = 121` — and fails with the timeout error instead
of succeeding. -/
theorem claimC3_counterexample :
    (∀ m < 120, StatusIs (lateOptimalFetch "abc-123" m) "Running") ∧
    lateOptimalFetch "abc-123" 120 = .ok ⟨"optimal", Json.null⟩ ∧
    (getApiResults (.ok ⟨"abc-123"⟩) lateOptimalFetch "results_file"
        none).2.fetches ≠ 120 + 1 ∧
    (getApiResults (.ok ⟨"abc-123"⟩) lateOptimalFetch "results_file" none).1 =
      .error (.jsError "API polling timed out") :=
  ⟨by decide, rfl, by decide, rfl⟩

/-- Claim C4: any successful fetch whose status is outside the
terminal enumeration ("optimal" / "error") is classified as
keep-polling (first conjunct: such a status is `NonTermOk`, the
loop-continuation condition, for every body), and for every sequence
of arbitrary non-terminal statuses with the first terminal status at
attempt `k`, the loop keeps polling without raising an error and
returns immediately at the terminal fetch: exactly `k + 1` fetches
and a successful result. -/
theorem claimC4_unknown_treated_as_running (sub : Submission)
    (f : String → Nat → Except JsError JobDoc) (name : String)
    (rid : Option String) (d : JobDoc) (k : Nat) (s : String) (b : Json)
    (hs1 : s ≠ "optimal") (hs2 : s ≠ "error")
    (hpre : ∀ m < k, NonTermOk (f sub.run_uuid m))
    (hk : f sub.run_uuid k = .ok d)
    (hterm : d.status = "optimal" ∨ d.status = "error")
    (hlt : k < maxAttempts) :
    NonTermOk (.ok ⟨s, b⟩) ∧
    getApiResults (.ok sub) f name rid =
      (.ok d, ⟨1, k + 1, k, [(pathJoin outputsPath (name ++ ".json"), d)]⟩) := by
  constructor
  · intro hor
    rcases hor with h | h
    · exact hs1 h
    · exact hs2 h
  · exact getApiResults_reaches_terminal sub f name rid d k hpre hk hterm hlt

/-- Claim C4 witness: the unrecognized status "weird_future_status" is
classified keep-polling, and a run fetching the out-of-enumeration
status "Optimizing..." twice and then the terminal "error" performs
exactly 3 fetches, 2 sleeps, and returns the terminal document. -/
theorem claimC4_witness :
    NonTermOk (.ok ⟨"weird_future_status", Json.null⟩) ∧
    getApiResults (.ok ⟨"run-9"⟩) weirdThenErrorFetch "results_file" none =
      (.ok ⟨"error", Json.null⟩,
       ⟨1, 3, 2, [("outputs/results_file.json", ⟨"error", Json.null⟩)]⟩) :=
  claimC4_unknown_treated_as_running ⟨"run-9"⟩ weirdThenErrorFetch
    "results_file" none _ 2 "weird_future_status" Json.null
    (by decide) (by decide) (by decide) rfl (Or.inr rfl) (by decide)

/-- Claim C5, counterexample to "when no hook is provided, reaching a
terminal state performs no write": `getApiResults` takes no completion
hook at all, and a run that reaches the terminal status on its first
fetch nevertheless writes the result file. -/
theorem claimC5_counterexample :
    (getApiResults (.ok ⟨"run-1"⟩) instantOptimalFetch "results_file"
        none).2.writes =
      [("outputs/results_file.json", ⟨"optimal", Json.null⟩)] ∧
    (getApiResults (.ok ⟨"run-1"⟩) instantOptimalFetch "results_file"
        none).2.writes ≠ [] :=
  ⟨rfl, fun h => nomatch h⟩

/-- Claim C5 as amended: persistence is automatic and unconditional —
every run that reaches a terminal state writes the final document to
`outputs/<outputFileName>.json`; there is no caller-supplied
on-completion hook. -/
theorem claimC5_persistence_automatic (sub : Submission)
    (f : String → Nat → Except JsError JobDoc) (name : String)
    (rid : Option String) (d : JobDoc) (k : Nat)
    (hpre : ∀ m < k, NonTermOk (f sub.run_uuid m))
    (hk : f sub.run_uuid k = .ok d)
    (hterm : d.status = "optimal" ∨ d.status = "error")
    (hlt : k < maxAttempts) :
    (getApiResults (.ok sub) f name rid).2.writes =
      [(pathJoin outputsPath (name ++ ".json"), d)] := by
  rw [getApiResults_reaches_terminal sub f name rid d k hpre hk hterm hlt]

/-- Claim C5 witness: the amended statement at a first-fetch-terminal
run. -/
theorem claimC5_witness :
    (getApiResults (.ok ⟨"run-2"⟩) instantOptimalFetch "results_file"
        none).2.writes =
      [("outputs/results_file.json", ⟨"optimal", Json.null⟩)] :=
  claimC5_persistence_automatic ⟨"run-2"⟩ instantOptimalFetch "results_file"
    none ⟨"optimal", Json.null⟩ 0 (fun m hm => absurd hm (Nat.not_lt_zero m))
    rfl (Or.inl rfl) (by decide)

/-- Claim C6, counterexample to "load on a name never saved fails with
NotFoundError": `loadElectricRate` on the empty store returns the
success value null — it does not fail at all. -/
theorem claimC6_counterexample :
    loadElectricRate ([] : FS) "PGE_E20" = .ok .null ∧
    ∀ e : JsError, loadElectricRate ([] : FS) "PGE_E20" ≠ .error e :=
  ⟨rfl, fun e h => nomatch h⟩

/-- Claim C6 as amended: on a name never saved, `loadPostData` (and
likewise `loadApiResponse`) fails with the file-not-found (ENOENT)
error, but `loadElectricRate` — whose existence check takes the
absent branch — returns null as a success value instead of failing. -/
theorem claimC6_absent_miss_behavior (fs : FS) (fileName rateName : String)
    (h1 : lookupFS fs (pathJoin inputsPath (fileName ++ ".json")) = none)
    (h2 : lookupFS fs (pathJoin ratesPath (rateName ++ ".json")) = none) :
    loadPostData fs fileName =
      .error (.enoent (pathJoin inputsPath (fileName ++ ".json"))) ∧
    loadElectricRate fs rateName = .ok .null := by
  constructor
  · simp [loadPostData, readFileSync, h1]
  · simp [loadElectricRate, existsSync, readFileSync, h2]

/-- Claim C6 witness: the amended statement on the empty store. -/
theorem claimC6_witness :
    loadPostData ([] : FS) "post_2" = .error (.enoent "inputs/post_2.json") ∧
    loadElectricRate ([] : FS) "PGE_E20" = .ok .null :=
  claimC6_absent_miss_behavior [] "post_2" "PGE_E20" rfl rfl

/-- Claim C7: saving a document under a name and loading that name
back returns the same document, in both the submitted-input category
(`savePostData` / `loadPostData`, under `inputs/`) and the raw-output
category (`saveApiResponse` / `loadApiResponse`, under `outputs/`),
whatever the prior store contents. -/
theorem claimC7_roundtrip (fs : FS) (doc : Json) (fileName : String) :
    loadPostData (savePostData fs doc fileName) fileName = .ok doc ∧
    loadApiResponse (saveApiResponse fs doc fileName) fileName = .ok doc := by
  constructor <;>
    simp [loadPostData, savePostData, loadApiResponse, saveApiResponse,
      writeFileSync, readFileSync, lookupFS]

/-- Claim C8: adapter errors propagate to the caller unchanged. A
submit failure is rethrown as-is with zero status fetches — the one
submit call is not retried and is terminal for the run; a transport
error on the fetch at attempt `k` is rethrown as-is after exactly
`k + 1` fetches — the failed call is not retried — with nothing
written. -/
theorem claimC8_propagate_unchanged (e : JsError) (sub : Submission)
    (f : String → Nat → Except JsError JobDoc) (name : String)
    (rid : Option String) (k : Nat)
    (hpre : ∀ m < k, NonTermOk (f sub.run_uuid m))
    (hk : f sub.run_uuid k = .error e)
    (hlt : k < maxAttempts) :
    getApiResults (.error e) f name rid = (.error e, ⟨1, 0, 0, []⟩) ∧
    getApiResults (.ok sub) f name rid = (.error e, ⟨1, k + 1, k, []⟩) := by
  constructor
  · rfl
  · exact getApiResults_fetch_error sub f name rid e k hpre hk hlt

/-- Claim C8 witness: a connection-reset transport error on submit,
and the same error on the second status fetch, both surface
unchanged. -/
theorem claimC8_witness :
    getApiResults (.error (.axiosErr "ECONNRESET")) failsAtOneFetch
        "results_file" none = (.error (.axiosErr "ECONNRESET"), ⟨1, 0, 0, []⟩) ∧
    getApiResults (.ok ⟨"run-3"⟩) failsAtOneFetch "results_file" none =
      (.error (.axiosErr "ECONNRESET"), ⟨1, 2, 1, []⟩) :=
  claimC8_propagate_unchanged (.axiosErr "ECONNRESET") ⟨"run-3"⟩
    failsAtOneFetch "results_file" none 1 (by decide) rfl (by decide)

/-- Claim C9, counterexample to "summarize never fails": a response
whose `messages` is a truthy object with no `errors` field makes
`printResultsSummary` throw the `Object.keys` TypeError. -/
theorem claimC9_counterexample :
    printResultsSummary ⟨"optimal", "run-1", Json.null, Json.obj []⟩ =
      .error (.typeError "Cannot convert undefined or null to object") :=
  rfl

/-- Claim C9 as amended: `printResultsSummary` returns normally on
every response, with absent fields simply omitted, provided that when
`messages` is truthy its `errors` and `warnings` fields are present
(non-null); a truthy `messages` with null or missing `errors` or
`warnings` is the one family of inputs on which it throws. -/
theorem claimC9_summary_total (r : RespDoc)
    (herr : truthy r.messages = true → getField r.messages "errors" ≠ Json.null)
    (hwarn : truthy r.messages = true → getField r.messages "warnings" ≠ Json.null) :
    isOk (printResultsSummary r) = true := by
  obtain ⟨tls, htls⟩ := isOk_exists _ (allTechLines_isOk r.outputs techList)
  obtain ⟨mls, hmls⟩ := isOk_exists _ (messageLines_isOk r.messages herr hwarn)
  obtain ⟨cls, hcls⟩ := isOk_exists _ (outputCategoryLines_isOk r.outputs)
  simp [printResultsSummary, htls, hmls, hcls, isOk]

/-- Claim C9 witness: a response with financial outputs and null
messages is summarized without failing. -/
theorem claimC9_witness :
    isOk (printResultsSummary ⟨"optimal", "run-1",
      Json.obj [("Financial", Json.obj [("npv", Json.num 50000)])],
      Json.null⟩) = true :=
  claimC9_summary_total _ (fun h => nomatch h) (fun h => nomatch h)

/-- Claim C10: on the timeout path the loop sleeps the full interval
after every one of its fetches, the last included: a run whose first
`maxAttempts` fetches are all non-terminal performs exactly
`maxAttempts` sleeps (one per fetch) before failing with the timeout
error. -/
theorem claimC10_sleeps_after_last_fetch (sub : Submission)
    (f : String → Nat → Except JsError JobDoc) (name : String)
    (rid : Option String)
    (hpre : ∀ m < maxAttempts, NonTermOk (f sub.run_uuid m)) :
    (getApiResults (.ok sub) f name rid).2.sleeps = maxAttempts ∧
    (getApiResults (.ok sub) f name rid).2.fetches = maxAttempts ∧
    (getApiResults (.ok sub) f name rid).1 =
      .error (.jsError "API polling timed out") := by
  rw [getApiResults_times_out sub f name rid hpre]
  exact ⟨rfl, rfl, rfl⟩

/-- Claim C10 witness: the statement at an all-Pending fetch
sequence. -/
theorem claimC10_witness :
    (getApiResults (.ok ⟨"run-7"⟩) (fun _ _ => .ok ⟨"Pending", Json.null⟩)
        "results_file" none).2.sleeps = maxAttempts ∧
    (getApiResults (.ok ⟨"run-7"⟩) (fun _ _ => .ok ⟨"Pending", Json.null⟩)
        "results_file" none).2.fetches = maxAttempts ∧
    (getApiResults (.ok ⟨"run-7"⟩) (fun _ _ => .ok ⟨"Pending", Json.null⟩)
        "results_file" none).1 = .error (.jsError "API polling timed out") :=
  claimC10_sleeps_after_last_fetch ⟨"run-7"⟩ _ "results_file" none (by decide)

end Reopt
